import Mathlib

/-!
Verification development for the image-copy core of the hangar / image-tools
repository (package `source`, file modelled below as straight-line Lean
definitions).  Pure Go functions become Lean functions; the stateful copy
flows become explicit state passing over a `Source` session value; external
calls (the blob copier, the manifest inspector, reference parsing, the
config fetch, `os.Rename`) are modelled by an oracle (`EntryWorld`) that
supplies each call's outcome, and the flows record which external actions
they performed in an event trace.
-/

namespace ImageTools

/-! ### Media-type constants

Values of the constants referenced from `containers/image/v5/manifest` and
`opencontainers/image-spec`. -/

def DockerV2Schema1MediaType : String :=
  "application/vnd.docker.distribution.manifest.v1+json"

def DockerV2Schema1SignedMediaType : String :=
  "application/vnd.docker.distribution.manifest.v1+prettyjws"

def DockerV2Schema2MediaType : String :=
  "application/vnd.docker.distribution.manifest.v2+json"

def DockerV2ListMediaType : String :=
  "application/vnd.docker.distribution.manifest.list.v2+json"

def MediaTypeImageManifest : String :=
  "application/vnd.oci.image.manifest.v1+json"

def MediaTypeImageIndex : String :=
  "application/vnd.oci.image.index.v1+json"

/-! ### Data model -/

/-- Platform block of a manifest-list entry (`manifestv5.Schema2PlatformSpec`
/ `imgspecv1.Platform`). -/
structure Platform where
  architecture : String
  os : String
  osVersion : String
  osFeatures : List String
  variant : String
deriving DecidableEq, Repr

/-- One entry of a docker v2 manifest list or an OCI image index:
media type, digest and platform. -/
structure Descriptor where
  mediaType : String
  digest : String
  platform : Platform
deriving DecidableEq, Repr

/-- Config / layer descriptor of a schema-2 or OCI image manifest: only the
digest and the `urls` field are observed by this file. -/
structure BlobDescriptor where
  digest : String
  urls : List String
deriving DecidableEq, Repr

/-- Parsed docker v2 schema-2 manifest (`manifestv5.Schema2`), restricted to
the fields read here. -/
structure Schema2 where
  configDescriptor : BlobDescriptor
  layersDescriptors : List BlobDescriptor
deriving DecidableEq, Repr

/-- Parsed OCI image manifest (`imgspecv1.Manifest`), restricted to the
fields read here. -/
structure OCIManifest where
  config : BlobDescriptor
  layers : List BlobDescriptor
deriving DecidableEq, Repr

/-- Fields of an unmarshalled OCI image config (`imgspecv1.Image`) observed
by the copy flows. -/
structure OCIConfigInfo where
  architecture : String
  os : String
  osVersion : String
  osFeatures : List String
  variant : String
deriving DecidableEq, Repr

/-- Platform summary attached to a schema-1 session
(`typesv5.ImageInspectInfo`): only `Architecture`, `Os` and `Variant` are
read by the schema-1 flow. -/
structure ImageInspectInfo where
  architecture : String
  os : String
  variant : String
deriving DecidableEq, Repr

/-- Provenance record `archive.ImageSpec`. -/
structure ImageSpec where
  arch : String
  os : String
  osVersion : String
  osFeatures : List String
  variant : String
  mediaType : String
  layers : List String
  config : String
  digest : String
deriving DecidableEq, Repr

/-- Final provenance record `archive.Image` returned by `GetCopiedImage`. -/
structure Image where
  source : String
  tag : String
  archList : List String
  osList : List String
  images : List ImageSpec
deriving DecidableEq, Repr

/-- Destination kind (`types.TypeOci` and the rest).  The copy flows only
ever compare the kind with `TypeOci`, so all other kinds are collapsed into
one constructor. -/
inductive DestinationType where
  | oci
  | other
deriving DecidableEq, Repr

/-- The `destination.Destination` capability, restricted to the operations
the copy flows invoke.  `haveDigest` models `HaveDigest`; reference
construction success is part of the per-entry oracle. -/
structure Destination where
  haveDigest : String → Bool
  referenceName : String
  destType : DestinationType
  directory : String

/-- Modelled from the spec: `types.FilterSet` is not under `src/`; §4.1
describes it as a set per dimension (arch, os, variant) where an empty
dimension is a wildcard. -/
structure FilterSet where
  archSet : List String
  osSet : List String
  variantSet : List String

/-- Modelled from the spec: `FilterSet.Allow` "returns true iff every
non-empty dimension in the filter set contains the value.  Empty dimensions
are wildcards.  Variant comparison is exact string equality." -/
def FilterSet.Allow (s : FilterSet) (arch os variant : String) : Bool :=
  (s.archSet.isEmpty || s.archSet.contains arch)
    && (s.osSet.isEmpty || s.osSet.contains os)
    && (s.variantSet.isEmpty || s.variantSet.contains variant)

/-- The session object (`Source` struct), restricted to the fields the copy
flows read and write.  The Go `map[string]bool` accumulators `copiedArch`
and `copiedOS` are modelled as duplicate-free key lists in insertion
order. -/
structure Source where
  mime : String
  referenceName : String
  registry : String
  project : String
  name : String
  tag : String
  schema2List : List Descriptor
  ociIndex : List Descriptor
  manifestDigest : String
  ociConfig : OCIConfigInfo
  schema2 : Schema2
  ociManifest : OCIManifest
  imageInspectInfo : ImageInspectInfo
  copiedList : List ImageSpec
  copiedArch : List String
  copiedOS : List String
deriving DecidableEq, Repr

/-- `CopyOptions` passed to `Source.Copy`.  The passphrase bytes are
modelled as a list of naturals. -/
structure CopyOptions where
  sigstorePrivateKey : String
  sigstorePassphrase : List Nat
  removeSignatures : Bool
  destination : Destination
  set : FilterSet

/-! ### Pure helper functions from the source -/

/-- `needInspectConfig` (source lines 728-741), verbatim translation of the
`switch` on the OS. -/
def needInspectConfig
    (osInfo arch variant osVersion : String) (osFeatures : List String) :
    Bool :=
  if osInfo = "windows" then
    osVersion = "" || osFeatures.isEmpty
  else if osInfo = "linux" then
    if arch = "arm" then variant = "" else false
  else
    false

/-- `updateSpecDockerV2Schema2` (source lines 689-701): set the config
digest, then walk the layer descriptors in order, skipping any layer whose
`URLs` slice is non-empty and appending the digest of the rest. -/
def updateSpecDockerV2Schema2 (spec : ImageSpec) (schema2 : Schema2) :
    ImageSpec :=
  let spec := { spec with config := schema2.configDescriptor.digest }
  schema2.layersDescriptors.foldl
    (fun sp layer =>
      if layer.urls.length ≠ 0 then sp
      else { sp with layers := sp.layers ++ [layer.digest] })
    spec

/-- `updateSpecImageManifest` (source lines 715-726): same walk over an OCI
manifest's config and layers. -/
def updateSpecImageManifest (spec : ImageSpec) (ociManifest : OCIManifest) :
    ImageSpec :=
  let spec := { spec with config := ociManifest.config.digest }
  ociManifest.layers.foldl
    (fun sp layer =>
      if layer.urls.length ≠ 0 then sp
      else { sp with layers := sp.layers ++ [layer.digest] })
    spec

/-- Models `digest.Digest.Encoded` from `opencontainers/go-digest`: the
portion of the digest string after the first colon (digests are
`algorithm:hex`). -/
def digestEncoded (d : String) : String :=
  let parts := d.splitOn ":"
  if parts.length ≤ 1 then d else String.intercalate ":" parts.tail

/-- Models `filepath.Join` for the plain relative components used by the
schema-1 fixup. -/
def filepathJoin (dir component : String) : String :=
  dir ++ "/" ++ component

/-- Key insertion into a Go `map[string]bool` whose key set is modelled as
a duplicate-free list in insertion order (`m[k] = true`). -/
def insertKey (keys : List String) (k : String) : List String :=
  if k ∈ keys then keys else keys ++ [k]

/-- `recordCopiedImage` (source lines 604-609).  The Go function returns an
error that is always nil, so the model returns only the updated session. -/
def recordCopiedImage (s : Source) (image : ImageSpec) : Source :=
  { s with
    copiedList := s.copiedList ++ [image]
    copiedArch := insertKey s.copiedArch image.arch
    copiedOS := insertKey s.copiedOS image.os }

/-- `GetCopiedImage` (source lines 611-630).  The Go code iterates the two
accumulator maps with `for ... range`, whose order is unspecified by the Go
language; the model enumerates the key sets in insertion order, which is
one admissible order of that loop.  No sorting happens anywhere. -/
def GetCopiedImage (s : Source) : Image :=
  { source := s.registry ++ "/" ++ s.project ++ "/" ++ s.name
    tag := s.tag
    archList := s.copiedArch
    osList := s.copiedOS
    images := s.copiedList }

/-! ### Errors

Error taxonomy for the copy flows.  Go carries `error` values with message
strings; the model tags each error with the call site that produced it,
keeping exactly the data interpolated into the corresponding message. -/

/-- Per-entry (or single-flow) error, one constructor per failing call in
the flow bodies.  `configFailed` covers both `inspector.Config` and the
subsequent `json.Unmarshal` failure (the code appends one error and
continues in either case). -/
inductive EntryErr where
  | parseRef
  | destRef
  | copyRefused (mime : String)
  | copyFailed
  | newInspector
  | rawFailed
  | configFailed
  | digestFailed
  | schema2Parse
  | ociParse
  | unknownMime (mime : String)
  | renameFailed
deriving DecidableEq, Repr

/-- Error returned by `Copy` and the flow functions.  `composite` is the
`fmt.Errorf("error occurred when copy image [%v] => [%v]: %w", ...)` value
wrapping `errors.Join(errs...)`: it carries the source reference name, the
destination reference name, and the joined per-entry errors — and nothing
else. -/
inductive CopyError where
  | noAvailableImage
  | composite (src dst : String) (errs : List EntryErr)
  | entry (e : EntryErr)
  | unsupportedMIME (mime ref : String)
deriving DecidableEq, Repr

/-! ### The single-image copier (`copyImage`) -/

/-- The argument record handed to the underlying `copyv5` copier
(`copyv5.Options` plus the retry bounds).  Opaque reference/context/policy
fields are omitted: no claim observes them. -/
structure CopierCall where
  removeSignatures : Bool
  signBySigstorePrivateKeyFile : String
  signSigstorePrivateKeyPassphrase : List Nat
  preserveDigests : Bool
  forceManifestMIMEType : Option String
  maxParallelDownloads : Nat
  maxRetry : Nat
  delayMs : Nat
deriving DecidableEq, Repr

/-- Outcome of `copyImage`: either it refused before invoking the copier
(list/index source MIME), or the copier was invoked with the given options
and succeeded or failed. -/
inductive CopyImageResult where
  | refused (mime : String)
  | invoked (call : CopierCall) (ok : Bool)
deriving DecidableEq, Repr

/-- The `copyOptions` fields of `copyImage` that influence the copier
options; refs, contexts and the policy are opaque to every claim. -/
structure CopyImageOptions where
  sigstorePrivateKey : String
  sigstorePrivateKeyPassphrase : List Nat
  removeSignatures : Bool
  sourceMIME : String
deriving DecidableEq, Repr

/-- `copyImage` (source lines 645-687).  Builds the copier options with
`PreserveDigests = true`, then switches on the source MIME: schema-1
variants disable digest preservation and force the destination MIME to
schema-2; list/index MIMEs return an error before the copier is built;
everything else keeps the defaults.  `copierOk` is the oracle outcome of
`copier.Copy`. -/
def copyImage (o : CopyImageOptions) (copierOk : Bool) : CopyImageResult :=
  let base : CopierCall :=
    { removeSignatures := o.removeSignatures
      signBySigstorePrivateKeyFile := o.sigstorePrivateKey
      signSigstorePrivateKeyPassphrase := o.sigstorePrivateKeyPassphrase
      preserveDigests := true
      forceManifestMIMEType := none
      maxParallelDownloads := 3
      maxRetry := 3
      delayMs := 100 }
  if o.sourceMIME = DockerV2Schema1MediaType
      || o.sourceMIME = DockerV2Schema1SignedMediaType then
    CopyImageResult.invoked
      { base with
        preserveDigests := false
        forceManifestMIMEType := some DockerV2Schema2MediaType }
      copierOk
  else if o.sourceMIME = DockerV2ListMediaType
      || o.sourceMIME = MediaTypeImageIndex then
    CopyImageResult.refused o.sourceMIME
  else
    CopyImageResult.invoked base copierOk

/-! ### The external-world oracle and the event trace -/

/-- Observable content of the destination manifest bytes returned by
`inspector.Raw`: the final MIME, and the outcomes of the three consumers of
the bytes (`manifestv5.Digest`, `manifestv5.Schema2FromManifest`,
`json.Unmarshal` into an OCI manifest).  `none` models the corresponding
call failing. -/
structure RawResult where
  mime : String
  digest : Option String
  parseSchema2 : Option Schema2
  parseOCI : Option OCIManifest
deriving DecidableEq, Repr

/-- Oracle for the external calls made while processing one list entry (or
one single-image flow).  A `false` / `none` field makes the corresponding
call fail. -/
structure EntryWorld where
  parseSourceRefOk : Bool
  destRefOk : Bool
  copierOk : Bool
  newInspectorOk : Bool
  raw : Option RawResult
  config : Option OCIConfigInfo
  renameOk : Bool
deriving DecidableEq, Repr

/-- Externally visible action performed by a flow: an invocation of the
underlying copier, an `os.Rename`, or an append to the session's
provenance. -/
inductive Event where
  | copierInvoked (call : CopierCall)
  | renamed (oldPath newPath : String)
  | recorded (spec : ImageSpec)
deriving DecidableEq, Repr

/-- Recognizer for copier-invocation events. -/
def isCopierInvoked : Event → Bool
  | Event.copierInvoked _ => true
  | _ => false

/-! ### List flows (docker v2 list and OCI image index) -/

/-- Running state of a list-flow loop: the `copiedNum` counter, the
accumulated per-entry errors, the session being mutated, and the event
trace. -/
structure StepOut where
  copiedNum : Nat
  errs : List EntryErr
  src : Source
  events : List Event
deriving DecidableEq, Repr

/-- Append a per-entry error (`errs = append(errs, err); continue`). -/
def addErr (st : StepOut) (e : EntryErr) : StepOut :=
  { st with errs := st.errs ++ [e] }

/-- Append an event to the trace. -/
def pushEvent (st : StepOut) (e : Event) : StepOut :=
  { st with events := st.events ++ [e] }

/-- Tail of a successful list entry (source lines 230-235): record the spec
into the session and increment the counter. -/
def listEntryRecord (st : StepOut) (spec : ImageSpec) : StepOut :=
  { st with
    src := recordCopiedImage st.src spec
    events := st.events ++ [Event.recorded spec]
    copiedNum := st.copiedNum + 1 }

/-- Tail of a list entry after the platform backfill (source lines
187-235): compute the digest of the re-inspected bytes, build the base
spec, and fill layers/config according to the final destination MIME. -/
def listEntryFinish (m : Descriptor) (raw : RawResult)
    (arch osInfo osVersion : String) (osFeatures : List String)
    (variant : String) (st : StepOut) : StepOut :=
  match raw.digest with
  | none => addErr st EntryErr.digestFailed
  | some manifestDigest =>
    let spec : ImageSpec :=
      { arch := arch
        os := osInfo
        osVersion := osVersion
        osFeatures := osFeatures
        variant := variant
        mediaType := m.mediaType
        layers := []
        config := ""
        digest := manifestDigest }
    if raw.mime = DockerV2Schema2MediaType then
      match raw.parseSchema2 with
      | none => addErr st EntryErr.schema2Parse
      | some schema2 =>
        listEntryRecord st (updateSpecDockerV2Schema2 spec schema2)
    else if raw.mime = MediaTypeImageManifest then
      match raw.parseOCI with
      | none => addErr st EntryErr.ociParse
      | some ociManifest =>
        listEntryRecord st (updateSpecImageManifest spec ociManifest)
    else
      addErr st (EntryErr.unknownMime raw.mime)

/-- Body of one iteration of the list-flow loop (source lines 100-236 and,
character for character up to error-message strings, lines 254-390): the
filter, the `sigstorePrivateKey == "" && HaveDigest` fast path, reference
construction, `copyImage`, destination re-inspection, the conditional
config backfill, and the record tail. -/
def listEntryStep (opts : CopyOptions) (m : Descriptor) (w : EntryWorld)
    (st : StepOut) : StepOut :=
  let arch := m.platform.architecture
  let osInfo := m.platform.os
  let osVersion := m.platform.osVersion
  let osFeatures := m.platform.osFeatures
  let variant := m.platform.variant
  if !(opts.set.Allow arch osInfo variant) then st
  else if opts.sigstorePrivateKey = ""
      && opts.destination.haveDigest m.digest then
    { st with copiedNum := st.copiedNum + 1 }
  else if !w.parseSourceRefOk then addErr st EntryErr.parseRef
  else if !w.destRefOk then addErr st EntryErr.destRef
  else
    match copyImage
        { sigstorePrivateKey := opts.sigstorePrivateKey
          sigstorePrivateKeyPassphrase := opts.sigstorePassphrase
          removeSignatures := opts.removeSignatures
          sourceMIME := m.mediaType } w.copierOk with
    | CopyImageResult.refused mime => addErr st (EntryErr.copyRefused mime)
    | CopyImageResult.invoked call ok =>
      let st := pushEvent st (Event.copierInvoked call)
      if !ok then addErr st EntryErr.copyFailed
      else if !w.newInspectorOk then addErr st EntryErr.newInspector
      else
        match w.raw with
        | none => addErr st EntryErr.rawFailed
        | some raw =>
          if needInspectConfig osInfo arch variant osVersion osFeatures then
            match w.config with
            | none => addErr st EntryErr.configFailed
            | some cfg =>
              let osVersion := if osVersion = "" then cfg.osVersion
                else osVersion
              let osFeatures := if osFeatures.isEmpty then cfg.osFeatures
                else osFeatures
              let variant := if variant = "" then cfg.variant else variant
              listEntryFinish m raw arch osInfo osVersion osFeatures variant
                st
          else
            listEntryFinish m raw arch osInfo osVersion osFeatures variant st

/-- Loop body of `copyDockerV2ListMediaType` (source lines 100-236). -/
def copyDockerV2ListStep : CopyOptions → Descriptor → EntryWorld → StepOut →
    StepOut :=
  listEntryStep

/-- Loop body of `copyMediaTypeImageIndex` (source lines 254-390); the Go
body is identical to the docker-list one except for error-message
wording. -/
def copyMediaTypeImageIndexStep : CopyOptions → Descriptor → EntryWorld →
    StepOut → StepOut :=
  listEntryStep

/-- `for _, m := range manifests { body }`, with the oracle indexed by the
iteration number. -/
def foldEntries
    (step : CopyOptions → Descriptor → EntryWorld → StepOut → StepOut)
    (opts : CopyOptions) (worlds : Nat → EntryWorld) :
    Nat → List Descriptor → StepOut → StepOut
  | _, [], st => st
  | i, m :: rest, st =>
    foldEntries step opts worlds (i + 1) rest (step opts m (worlds i) st)

/-- `copyDockerV2ListMediaType` (source lines 94-246): run the loop over
`s.schema2List.Manifests`, then return the copied count together with the
composite error when any per-entry error accumulated. -/
def copyDockerV2ListMediaType (s : Source) (opts : CopyOptions)
    (worlds : Nat → EntryWorld) :
    (Nat × Option CopyError) × Source × List Event :=
  let st := foldEntries copyDockerV2ListStep opts worlds 0 s.schema2List
    { copiedNum := 0, errs := [], src := s, events := [] }
  if st.errs.isEmpty then ((st.copiedNum, none), st.src, st.events)
  else
    ((st.copiedNum,
      some (CopyError.composite s.referenceName
        opts.destination.referenceName st.errs)),
     st.src, st.events)

/-- `copyMediaTypeImageIndex` (source lines 248-399): same shape over
`s.ociIndex.Manifests`. -/
def copyMediaTypeImageIndex (s : Source) (opts : CopyOptions)
    (worlds : Nat → EntryWorld) :
    (Nat × Option CopyError) × Source × List Event :=
  let st := foldEntries copyMediaTypeImageIndexStep opts worlds 0 s.ociIndex
    { copiedNum := 0, errs := [], src := s, events := [] }
  if st.errs.isEmpty then ((st.copiedNum, none), st.src, st.events)
  else
    ((st.copiedNum,
      some (CopyError.composite s.referenceName
        opts.destination.referenceName st.errs)),
     st.src, st.events)

/-! ### Single-image flows -/

/-- `copyDockerV2Schema2MediaType` (source lines 401-457): filter on the
session's pre-parsed config, fast path on the pre-computed manifest digest,
build refs, copy, then build the spec directly from `s.schema2` and
record. -/
def copyDockerV2Schema2MediaType (s : Source) (opts : CopyOptions)
    (w : EntryWorld) : Except CopyError Unit × Source × List Event :=
  let arch := s.ociConfig.architecture
  let osInfo := s.ociConfig.os
  let osVersion := s.ociConfig.osVersion
  let osFeatures := s.ociConfig.osFeatures
  let variant := s.ociConfig.variant
  if !(opts.set.Allow arch osInfo variant) then
    (Except.error CopyError.noAvailableImage, s, [])
  else if opts.sigstorePrivateKey = ""
      && opts.destination.haveDigest s.manifestDigest then
    (Except.ok (), s, [])
  else if !w.parseSourceRefOk then
    (Except.error (CopyError.entry EntryErr.parseRef), s, [])
  else if !w.destRefOk then
    (Except.error (CopyError.entry EntryErr.destRef), s, [])
  else
    match copyImage
        { sigstorePrivateKey := opts.sigstorePrivateKey
          sigstorePrivateKeyPassphrase := opts.sigstorePassphrase
          removeSignatures := opts.removeSignatures
          sourceMIME := s.mime } w.copierOk with
    | CopyImageResult.refused mime =>
      (Except.error (CopyError.entry (EntryErr.copyRefused mime)), s, [])
    | CopyImageResult.invoked call ok =>
      if !ok then
        (Except.error (CopyError.entry EntryErr.copyFailed), s,
         [Event.copierInvoked call])
      else
        let spec : ImageSpec :=
          { arch := arch
            os := osInfo
            osVersion := osVersion
            osFeatures := osFeatures
            variant := variant
            mediaType := s.mime
            layers := []
            config := s.schema2.configDescriptor.digest
            digest := s.manifestDigest }
        let spec := updateSpecDockerV2Schema2 spec s.schema2
        (Except.ok (), recordCopiedImage s spec,
         [Event.copierInvoked call, Event.recorded spec])

/-- `copyMediaTypeImageManifest` (source lines 550-602): filter on the
session's pre-parsed config, build refs, copy, then build the spec from
`s.ociManifest` and record.  Note: unlike the schema-2 flow there is no
`HaveDigest` fast path in the source. -/
def copyMediaTypeImageManifest (s : Source) (opts : CopyOptions)
    (w : EntryWorld) : Except CopyError Unit × Source × List Event :=
  let arch := s.ociConfig.architecture
  let osInfo := s.ociConfig.os
  let osVersion := s.ociConfig.osVersion
  let osFeatures := s.ociConfig.osFeatures
  let variant := s.ociConfig.variant
  if !(opts.set.Allow arch osInfo variant) then
    (Except.error CopyError.noAvailableImage, s, [])
  else if !w.parseSourceRefOk then
    (Except.error (CopyError.entry EntryErr.parseRef), s, [])
  else if !w.destRefOk then
    (Except.error (CopyError.entry EntryErr.destRef), s, [])
  else
    match copyImage
        { sigstorePrivateKey := opts.sigstorePrivateKey
          sigstorePrivateKeyPassphrase := opts.sigstorePassphrase
          removeSignatures := opts.removeSignatures
          sourceMIME := s.mime } w.copierOk with
    | CopyImageResult.refused mime =>
      (Except.error (CopyError.entry (EntryErr.copyRefused mime)), s, [])
    | CopyImageResult.invoked call ok =>
      if !ok then
        (Except.error (CopyError.entry EntryErr.copyFailed), s,
         [Event.copierInvoked call])
      else
        let spec : ImageSpec :=
          { arch := arch
            os := osInfo
            osVersion := osVersion
            osFeatures := osFeatures
            variant := variant
            mediaType := s.mime
            layers := []
            config := s.ociManifest.config.digest
            digest := s.manifestDigest }
        let spec := updateSpecImageManifest spec s.ociManifest
        (Except.ok (), recordCopiedImage s spec,
         [Event.copierInvoked call, Event.recorded spec])

/-- `copyDockerV2Schema1MediaType` (source lines 459-548): platform from
`imageInspectInfo` with `osVersion` forced empty, no fast path, destination
staged under the literal `"UNKNOW"`, copy with conversion, re-inspect the
destination, recompute the digest, parse as schema-2, optionally rename the
staged OCI directory, and record. -/
def copyDockerV2Schema1MediaType (s : Source) (opts : CopyOptions)
    (w : EntryWorld) : Except CopyError Unit × Source × List Event :=
  let arch := s.imageInspectInfo.architecture
  let osInfo := s.imageInspectInfo.os
  let osVersion := ""
  let variant := s.imageInspectInfo.variant
  if !(opts.set.Allow arch osInfo variant) then
    (Except.error CopyError.noAvailableImage, s, [])
  else if !w.parseSourceRefOk then
    (Except.error (CopyError.entry EntryErr.parseRef), s, [])
  else if !w.destRefOk then
    (Except.error (CopyError.entry EntryErr.destRef), s, [])
  else
    match copyImage
        { sigstorePrivateKey := opts.sigstorePrivateKey
          sigstorePrivateKeyPassphrase := opts.sigstorePassphrase
          removeSignatures := opts.removeSignatures
          sourceMIME := s.mime } w.copierOk with
    | CopyImageResult.refused mime =>
      (Except.error (CopyError.entry (EntryErr.copyRefused mime)), s, [])
    | CopyImageResult.invoked call ok =>
      if !ok then
        (Except.error (CopyError.entry EntryErr.copyFailed), s,
         [Event.copierInvoked call])
      else if !w.newInspectorOk then
        (Except.error (CopyError.entry EntryErr.newInspector), s,
         [Event.copierInvoked call])
      else
        match w.raw with
        | none =>
          (Except.error (CopyError.entry EntryErr.rawFailed), s,
           [Event.copierInvoked call])
        | some raw =>
          match raw.digest with
          | none =>
            (Except.error (CopyError.entry EntryErr.digestFailed), s,
             [Event.copierInvoked call])
          | some manifestDigest =>
            match raw.parseSchema2 with
            | none =>
              (Except.error (CopyError.entry EntryErr.schema2Parse), s,
               [Event.copierInvoked call])
            | some schema2 =>
              let spec : ImageSpec :=
                { arch := arch
                  os := osInfo
                  osVersion := osVersion
                  osFeatures := []
                  variant := variant
                  mediaType := raw.mime
                  layers := []
                  config := schema2.configDescriptor.digest
                  digest := manifestDigest }
              let spec := updateSpecDockerV2Schema2 spec schema2
              if opts.destination.destType = DestinationType.oci then
                let o := filepathJoin opts.destination.directory "UNKNOW"
                let n := filepathJoin opts.destination.directory
                  (digestEncoded manifestDigest)
                if w.renameOk then
                  (Except.ok (), recordCopiedImage s spec,
                   [Event.copierInvoked call, Event.renamed o n,
                    Event.recorded spec])
                else
                  (Except.error (CopyError.entry EntryErr.renameFailed), s,
                   [Event.copierInvoked call, Event.renamed o n])
              else
                (Except.ok (), recordCopiedImage s spec,
                 [Event.copierInvoked call, Event.recorded spec])

/-! ### Dispatcher -/

/-- `Source.Copy` (source lines 39-92): dispatch on the session MIME.  For
list types, a flow error is returned as-is and a zero copied count with no
error becomes `utils.ErrNoAvailableImage`; single-image flows return their
error directly; any other MIME fails with the unsupported-MIME error. -/
def Copy (s : Source) (opts : CopyOptions) (worlds : Nat → EntryWorld) :
    Except CopyError Unit × Source × List Event :=
  if s.mime = DockerV2ListMediaType then
    let o := copyDockerV2ListMediaType s opts worlds
    match o.1.2 with
    | some e => (Except.error e, o.2.1, o.2.2)
    | none =>
      if o.1.1 = 0 then (Except.error CopyError.noAvailableImage, o.2.1, o.2.2)
      else (Except.ok (), o.2.1, o.2.2)
  else if s.mime = MediaTypeImageIndex then
    let o := copyMediaTypeImageIndex s opts worlds
    match o.1.2 with
    | some e => (Except.error e, o.2.1, o.2.2)
    | none =>
      if o.1.1 = 0 then (Except.error CopyError.noAvailableImage, o.2.1, o.2.2)
      else (Except.ok (), o.2.1, o.2.2)
  else if s.mime = DockerV2Schema2MediaType then
    copyDockerV2Schema2MediaType s opts (worlds 0)
  else if s.mime = DockerV2Schema1MediaType
      || s.mime = DockerV2Schema1SignedMediaType then
    copyDockerV2Schema1MediaType s opts (worlds 0)
  else if s.mime = MediaTypeImageManifest then
    copyMediaTypeImageManifest s opts (worlds 0)
  else
    (Except.error (CopyError.unsupportedMIME s.mime s.referenceName), s, [])

/-! ### Helper lemmas -/

/-- The layer walk shared by both spec-update functions equals an append of
the filtered, projected layer digests. -/
theorem updateLayersAux (ls : List BlobDescriptor) (sp : ImageSpec) :
    ls.foldl
      (fun sp layer =>
        if layer.urls.length ≠ 0 then sp
        else { sp with layers := sp.layers ++ [layer.digest] })
      sp
    = { sp with
        layers := sp.layers
          ++ (ls.filter (fun l => l.urls.isEmpty)).map (fun l => l.digest) } := by
  induction ls generalizing sp with
  | nil => simp
  | cons l ls ih =>
    simp only [List.foldl_cons, List.filter_cons]
    by_cases h : l.urls.length = 0
    · have hne : ¬(l.urls.length ≠ 0) := by simpa using h
      have hempty : l.urls.isEmpty = true := by
        simpa [List.isEmpty_iff, List.length_eq_zero] using h
      rw [if_neg hne, ih]
      simp [hempty]
    · have hempty : l.urls.isEmpty = false := by
        cases hu : l.urls with
        | nil => exact absurd (by simp [hu]) h
        | cons a as => simp [hu]
      rw [if_pos h, ih]
      simp [hempty]

/-- `updateSpecDockerV2Schema2` in closed form: the config digest is
replaced and exactly the digests of the url-free layers are appended, in
manifest order. -/
theorem updateSpecDockerV2Schema2_eq (spec : ImageSpec) (m : Schema2) :
    updateSpecDockerV2Schema2 spec m =
      { spec with
        config := m.configDescriptor.digest
        layers := spec.layers
          ++ (m.layersDescriptors.filter (fun l => l.urls.isEmpty)).map
            (fun l => l.digest) } := by
  unfold updateSpecDockerV2Schema2
  rw [updateLayersAux]

/-- `updateSpecImageManifest` in closed form. -/
theorem updateSpecImageManifest_eq (spec : ImageSpec) (m : OCIManifest) :
    updateSpecImageManifest spec m =
      { spec with
        config := m.config.digest
        layers := spec.layers
          ++ (m.layers.filter (fun l => l.urls.isEmpty)).map
            (fun l => l.digest) } := by
  unfold updateSpecImageManifest
  rw [updateLayersAux]

/-! ### Claim theorems -/

/-- Claim C3: `needInspectConfig(os, arch, variant, osVersion, osFeatures)`
returns true iff the OS is `"windows"` and the osVersion is empty or the
osFeatures list is empty, or the OS is `"linux"` with arch `"arm"` and an
empty variant; for every other input it returns false. -/
theorem needInspectConfig_spec
    (osInfo arch variant osVersion : String) (osFeatures : List String) :
    needInspectConfig osInfo arch variant osVersion osFeatures = true ↔
      ((osInfo = "windows" ∧ (osVersion = "" ∨ osFeatures = []))
        ∨ (osInfo = "linux" ∧ arch = "arm" ∧ variant = "")) := by
  unfold needInspectConfig
  split_ifs with h1 h2 h3
  · subst h1
    simp [List.isEmpty_iff]
  · subst h2
    subst h3
    simp [h1]
  · subst h2
    simp [h1, h3]
  · simp [h1, h2]

/-- Claim C4: both spec-update functions set the config to the parsed
manifest's config descriptor digest and append exactly the digests, in
manifest order, of the layer descriptors whose `urls` field is empty;
layer descriptors with non-empty `urls` contribute nothing. -/
theorem updateSpec_config_and_layers
    (spec : ImageSpec) (m2 : Schema2) (om : OCIManifest) :
    ((updateSpecDockerV2Schema2 spec m2).config
        = m2.configDescriptor.digest
      ∧ (updateSpecDockerV2Schema2 spec m2).layers
        = spec.layers
          ++ (m2.layersDescriptors.filter (fun l => l.urls.isEmpty)).map
            (fun l => l.digest))
    ∧ ((updateSpecImageManifest spec om).config = om.config.digest
      ∧ (updateSpecImageManifest spec om).layers
        = spec.layers
          ++ (om.layers.filter (fun l => l.urls.isEmpty)).map
            (fun l => l.digest)) := by
  rw [updateSpecDockerV2Schema2_eq, updateSpecImageManifest_eq]
  exact ⟨⟨rfl, rfl⟩, ⟨rfl, rfl⟩⟩

/-- `copyImage` refuses only list/index source MIMEs. -/
theorem copyImage_refused_imp (o : CopyImageOptions) (k : Bool) (m : String)
    (h : copyImage o k = CopyImageResult.refused m) :
    o.sourceMIME = DockerV2ListMediaType
      ∨ o.sourceMIME = MediaTypeImageIndex := by
  unfold copyImage at h
  split_ifs at h with h1 h2
  simpa using h2

/-- The record/error tail of a list entry never invokes the copier: the
number of copier-invocation events is untouched. -/
theorem listEntryFinish_countP (m : Descriptor) (raw : RawResult)
    (arch osInfo osVersion : String) (osFeatures : List String)
    (variant : String) (st : StepOut) :
    ((listEntryFinish m raw arch osInfo osVersion osFeatures variant
        st).events).countP (fun e => isCopierInvoked e)
      = st.events.countP (fun e => isCopierInvoked e) := by
  unfold listEntryFinish
  cases hd : raw.digest with
  | none => simp [addErr]
  | some d =>
    split_ifs with h1 h2
    · cases hs : raw.parseSchema2 with
      | none => simp [addErr]
      | some m2 =>
        simp [listEntryRecord, List.countP_append, isCopierInvoked]
    · cases ho : raw.parseOCI with
      | none => simp [addErr]
      | some om =>
        simp [listEntryRecord, List.countP_append, isCopierInvoked]
    · simp [addErr]

/-- On any source MIME other than the four special-cased ones, `copyImage`
invokes the copier with the default options. -/
theorem copyImage_invoked_default (o : CopyImageOptions) (k : Bool)
    (h1 : o.sourceMIME ≠ DockerV2ListMediaType)
    (h2 : o.sourceMIME ≠ MediaTypeImageIndex)
    (h3 : o.sourceMIME ≠ DockerV2Schema1MediaType)
    (h4 : o.sourceMIME ≠ DockerV2Schema1SignedMediaType) :
    copyImage o k = CopyImageResult.invoked
      { removeSignatures := o.removeSignatures
        signBySigstorePrivateKeyFile := o.sigstorePrivateKey
        signSigstorePrivateKeyPassphrase := o.sigstorePrivateKeyPassphrase
        preserveDigests := true
        forceManifestMIMEType := none
        maxParallelDownloads := 3
        maxRetry := 3
        delayMs := 100 } k := by
  have c1 : (o.sourceMIME = DockerV2Schema1MediaType
      || o.sourceMIME = DockerV2Schema1SignedMediaType) = false := by
    simp [h3, h4]
  have c2 : (o.sourceMIME = DockerV2ListMediaType
      || o.sourceMIME = MediaTypeImageIndex) = false := by
    simp [h1, h2]
  simp [copyImage, c1, c2]

/-- Claim C6: `copyImage` returns an error without invoking the underlying
copier on list/index source MIMEs; on schema-1 (signed or not) it invokes
the copier with digest preservation disabled and the destination manifest
MIME forced to docker schema-2; on every other source MIME it invokes the
copier requesting digest preservation and forcing nothing. -/
theorem copyImage_mime_policy (o : CopyImageOptions) (copierOk : Bool) :
    ((o.sourceMIME = DockerV2ListMediaType
        ∨ o.sourceMIME = MediaTypeImageIndex) →
      copyImage o copierOk = CopyImageResult.refused o.sourceMIME)
    ∧ ((o.sourceMIME = DockerV2Schema1MediaType
        ∨ o.sourceMIME = DockerV2Schema1SignedMediaType) →
      copyImage o copierOk = CopyImageResult.invoked
        { removeSignatures := o.removeSignatures
          signBySigstorePrivateKeyFile := o.sigstorePrivateKey
          signSigstorePrivateKeyPassphrase := o.sigstorePrivateKeyPassphrase
          preserveDigests := false
          forceManifestMIMEType := some DockerV2Schema2MediaType
          maxParallelDownloads := 3
          maxRetry := 3
          delayMs := 100 } copierOk)
    ∧ (o.sourceMIME ≠ DockerV2ListMediaType →
       o.sourceMIME ≠ MediaTypeImageIndex →
       o.sourceMIME ≠ DockerV2Schema1MediaType →
       o.sourceMIME ≠ DockerV2Schema1SignedMediaType →
      copyImage o copierOk = CopyImageResult.invoked
        { removeSignatures := o.removeSignatures
          signBySigstorePrivateKeyFile := o.sigstorePrivateKey
          signSigstorePrivateKeyPassphrase := o.sigstorePrivateKeyPassphrase
          preserveDigests := true
          forceManifestMIMEType := none
          maxParallelDownloads := 3
          maxRetry := 3
          delayMs := 100 } copierOk) := by
  refine ⟨fun h => ?_, fun h => ?_, fun h1 h2 h3 h4 => ?_⟩
  · have c1 : (o.sourceMIME = DockerV2Schema1MediaType
        || o.sourceMIME = DockerV2Schema1SignedMediaType) = false := by
      rcases h with h | h <;>
        simp [h, DockerV2ListMediaType, MediaTypeImageIndex,
          DockerV2Schema1MediaType, DockerV2Schema1SignedMediaType]
    have c2 : (o.sourceMIME = DockerV2ListMediaType
        || o.sourceMIME = MediaTypeImageIndex) = true := by
      rcases h with h | h <;> simp [h]
    simp [copyImage, c1, c2]
  · have c1 : (o.sourceMIME = DockerV2Schema1MediaType
        || o.sourceMIME = DockerV2Schema1SignedMediaType) = true := by
      rcases h with h | h <;> simp [h]
    simp [copyImage, c1]
  · exact copyImage_invoked_default o copierOk h1 h2 h3 h4

/-- Witness for claim C6 at the three concrete source MIMEs. -/
theorem copyImage_mime_policy_witness :
    copyImage ⟨"", [], false, DockerV2ListMediaType⟩ true
      = CopyImageResult.refused DockerV2ListMediaType
    ∧ copyImage ⟨"", [], false, DockerV2Schema1MediaType⟩ true
      = CopyImageResult.invoked
        { removeSignatures := false
          signBySigstorePrivateKeyFile := ""
          signSigstorePrivateKeyPassphrase := []
          preserveDigests := false
          forceManifestMIMEType := some DockerV2Schema2MediaType
          maxParallelDownloads := 3
          maxRetry := 3
          delayMs := 100 } true
    ∧ copyImage ⟨"", [], false, MediaTypeImageManifest⟩ true
      = CopyImageResult.invoked
        { removeSignatures := false
          signBySigstorePrivateKeyFile := ""
          signSigstorePrivateKeyPassphrase := []
          preserveDigests := true
          forceManifestMIMEType := none
          maxParallelDownloads := 3
          maxRetry := 3
          delayMs := 100 } true :=
  ⟨(copyImage_mime_policy _ _).1 (Or.inl rfl),
   (copyImage_mime_policy _ _).2.1 (Or.inl rfl),
   (copyImage_mime_policy _ _).2.2 (by decide) (by decide) (by decide)
     (by decide)⟩

/-- Claim C5: in both list flows, for an entry that passes the filter: with
an empty sigstore key and the digest already at the destination the entry
is skipped, incrementing only the copied counter; with a non-empty sigstore
key the copier is invoked even though the destination has the digest. -/
theorem list_fast_path_gating (opts : CopyOptions) (m : Descriptor)
    (w : EntryWorld) (st : StepOut)
    (hallow : opts.set.Allow m.platform.architecture m.platform.os
      m.platform.variant = true) :
    ((opts.sigstorePrivateKey = ""
        ∧ opts.destination.haveDigest m.digest = true) →
      copyDockerV2ListStep opts m w st
          = { st with copiedNum := st.copiedNum + 1 }
        ∧ copyMediaTypeImageIndexStep opts m w st
          = { st with copiedNum := st.copiedNum + 1 })
    ∧ (opts.sigstorePrivateKey ≠ "" →
       opts.destination.haveDigest m.digest = true →
       w.parseSourceRefOk = true → w.destRefOk = true →
       m.mediaType ≠ DockerV2ListMediaType →
       m.mediaType ≠ MediaTypeImageIndex →
      (copyDockerV2ListStep opts m w st).events.countP
          (fun e => isCopierInvoked e)
        = st.events.countP (fun e => isCopierInvoked e) + 1
      ∧ (copyMediaTypeImageIndexStep opts m w st).events.countP
          (fun e => isCopierInvoked e)
        = st.events.countP (fun e => isCopierInvoked e) + 1) := by
  constructor
  · rintro ⟨hk, hh⟩
    have : listEntryStep opts m w st
        = { st with copiedNum := st.copiedNum + 1 } := by
      unfold listEntryStep
      simp [hallow, hk, hh]
    exact ⟨this, this⟩
  · intro hk hh hsrc hdst hm1 hm2
    have : (listEntryStep opts m w st).events.countP
        (fun e => isCopierInvoked e)
        = st.events.countP (fun e => isCopierInvoked e) + 1 := by
      unfold listEntryStep
      have hkf : (decide (opts.sigstorePrivateKey = "")
          && opts.destination.haveDigest m.digest) = false := by
        simp [hk]
      rcases hci : copyImage
          { sigstorePrivateKey := opts.sigstorePrivateKey
            sigstorePrivateKeyPassphrase := opts.sigstorePassphrase
            removeSignatures := opts.removeSignatures
            sourceMIME := m.mediaType } w.copierOk with mh | ⟨call, ok⟩
      · exact absurd (copyImage_refused_imp _ _ _ hci) (by simp [hm1, hm2])
      · simp only [hallow, hkf, hsrc, hdst, hci, Bool.not_true,
          Bool.false_eq_true, if_false, Bool.not_false, if_true]
        have hpush : (pushEvent st (Event.copierInvoked call)).events.countP
            (fun e => isCopierInvoked e)
            = st.events.countP (fun e => isCopierInvoked e) + 1 := by
          simp [pushEvent, List.countP_append, isCopierInvoked]
        cases ok with
        | false => simpa [addErr] using hpush
        | true =>
          cases hni : w.newInspectorOk with
          | false => simpa [addErr, hni] using hpush
          | true =>
            cases hraw : w.raw with
            | none => simpa [addErr, hni, hraw] using hpush
            | some raw =>
              by_cases hn : needInspectConfig m.platform.os
                  m.platform.architecture m.platform.variant
                  m.platform.osVersion m.platform.osFeatures = true
              · cases hcfg : w.config with
                | none => simp [addErr, hni, hraw, hn, hcfg, hpush]
                | some cfg =>
                  simp only [hni, hraw, hn, hcfg, Bool.not_true,
                    Bool.false_eq_true, if_false, if_true]
                  rw [listEntryFinish_countP]
                  exact hpush
              · simp only [hni, hraw, Bool.not_true, Bool.false_eq_true,
                  if_false, if_true, eq_self_iff_true]
                rw [if_neg hn, listEntryFinish_countP]
                exact hpush
    exact ⟨this, this⟩

/-! ### Concrete fixtures for witnesses and counterexamples -/

/-- Destination that already has every digest. -/
def destAll : Destination :=
  { haveDigest := fun _ => true
    referenceName := "docker.io/library/nginx:latest"
    destType := DestinationType.other
    directory := "/tmp/out" }

/-- Destination that has no digest. -/
def destNone : Destination :=
  { haveDigest := fun _ => false
    referenceName := "docker.io/library/nginx:latest"
    destType := DestinationType.other
    directory := "/tmp/out" }

/-- All-wildcard filter. -/
def filterAll : FilterSet := { archSet := [], osSet := [], variantSet := [] }

/-- Options with no sigstore key, destination `destAll`. -/
def optsFast : CopyOptions :=
  { sigstorePrivateKey := ""
    sigstorePassphrase := []
    removeSignatures := false
    destination := destAll
    set := filterAll }

/-- Options with a sigstore key, destination `destAll`. -/
def optsSign : CopyOptions :=
  { sigstorePrivateKey := "key.pem"
    sigstorePassphrase := []
    removeSignatures := false
    destination := destAll
    set := filterAll }

/-- Options with no sigstore key, destination `destNone`. -/
def optsNone : CopyOptions :=
  { sigstorePrivateKey := ""
    sigstorePassphrase := []
    removeSignatures := false
    destination := destNone
    set := filterAll }

/-- A linux/amd64 schema-2 list entry. -/
def mAmd : Descriptor :=
  { mediaType := DockerV2Schema2MediaType
    digest := "sha256:aaa"
    platform :=
      { architecture := "amd64", os := "linux", osVersion := ""
        osFeatures := [], variant := "" } }

/-- A parsed schema-2 manifest used as re-inspected destination content. -/
def schema2A : Schema2 :=
  { configDescriptor := { digest := "sha256:cfg", urls := [] }
    layersDescriptors := [{ digest := "sha256:l1", urls := [] }] }

/-- Re-inspected destination manifest bytes: schema-2, digest
`sha256:ddd`. -/
def rawA : RawResult :=
  { mime := DockerV2Schema2MediaType
    digest := some "sha256:ddd"
    parseSchema2 := some schema2A
    parseOCI := none }

/-- Oracle in which every external call succeeds. -/
def wOK : EntryWorld :=
  { parseSourceRefOk := true
    destRefOk := true
    copierOk := true
    newInspectorOk := true
    raw := some rawA
    config := some
      { architecture := "amd64", os := "linux", osVersion := ""
        osFeatures := [], variant := "" }
    renameOk := true }

/-- Oracle in which the underlying copier fails (transport error). -/
def wCopyFail : EntryWorld := { wOK with copierOk := false }

/-- Base session: a docker v2 list source holding the single entry
`mAmd`. -/
def srcBase : Source :=
  { mime := DockerV2ListMediaType
    referenceName := "docker.io/library/nginx:latest"
    registry := "docker.io"
    project := "library"
    name := "nginx"
    tag := "latest"
    schema2List := [mAmd]
    ociIndex := []
    manifestDigest := "sha256:mmm"
    ociConfig :=
      { architecture := "amd64", os := "linux", osVersion := ""
        osFeatures := [], variant := "" }
    schema2 := schema2A
    ociManifest :=
      { config := { digest := "sha256:ocfg", urls := [] }
        layers := [{ digest := "sha256:ol1", urls := [] }] }
    imageInspectInfo := { architecture := "amd64", os := "linux", variant := "" }
    copiedList := []
    copiedArch := []
    copiedOS := [] }

/-- Base session retargeted at an OCI image manifest source. -/
def srcOCIm : Source := { srcBase with mime := MediaTypeImageManifest }

/-- Witness for claim C5: concrete fast-path skip (counter 0 → 1, nothing
else changes) and concrete bypassed fast path with a sigstore key (one
copier invocation). -/
theorem list_fast_path_gating_witness :
    copyDockerV2ListStep optsFast mAmd wOK
        { copiedNum := 0, errs := [], src := srcBase, events := [] }
      = { copiedNum := 1, errs := [], src := srcBase, events := [] }
    ∧ (copyDockerV2ListStep optsSign mAmd wOK
        { copiedNum := 0, errs := [], src := srcBase, events := [] }
          ).events.countP (fun e => isCopierInvoked e) = 1 := by
  constructor
  · have h := (list_fast_path_gating optsFast mAmd wOK
      { copiedNum := 0, errs := [], src := srcBase, events := [] }
      (by rfl)).1 ⟨rfl, rfl⟩
    simpa using h.1
  · have h := ((list_fast_path_gating optsSign mAmd wOK
      { copiedNum := 0, errs := [], src := srcBase, events := [] }
      (by rfl)).2 (by decide) rfl rfl rfl (by decide) (by decide)).1
    simpa using h

/-- Amended claim C2: the docker v2 schema-2 single-image flow applies the
fast path (empty key plus a destination that already has the pre-computed
digest short-circuits to success with no external action), while the OCI
image manifest flow has no fast path and invokes the copier after the
filter whenever the references resolve. -/
theorem single_image_fast_path_schema2_only (s : Source)
    (opts : CopyOptions) (w : EntryWorld) :
    (opts.set.Allow s.ociConfig.architecture s.ociConfig.os
        s.ociConfig.variant = true →
     opts.sigstorePrivateKey = "" →
     opts.destination.haveDigest s.manifestDigest = true →
      copyDockerV2Schema2MediaType s opts w = (Except.ok (), s, []))
    ∧ (opts.set.Allow s.ociConfig.architecture s.ociConfig.os
        s.ociConfig.variant = true →
       w.parseSourceRefOk = true → w.destRefOk = true →
       s.mime = MediaTypeImageManifest →
      (copyMediaTypeImageManifest s opts w).2.2.countP
          (fun e => isCopierInvoked e) = 1) := by
  constructor
  · intro h1 h2 h3
    unfold copyDockerV2Schema2MediaType
    simp [h1, h2, h3]
  · intro h1 hsrc hdst hmime
    unfold copyMediaTypeImageManifest
    have hinv : copyImage
        { sigstorePrivateKey := opts.sigstorePrivateKey
          sigstorePrivateKeyPassphrase := opts.sigstorePassphrase
          removeSignatures := opts.removeSignatures
          sourceMIME := s.mime } w.copierOk
        = CopyImageResult.invoked
          { removeSignatures := opts.removeSignatures
            signBySigstorePrivateKeyFile := opts.sigstorePrivateKey
            signSigstorePrivateKeyPassphrase := opts.sigstorePassphrase
            preserveDigests := true
            forceManifestMIMEType := none
            maxParallelDownloads := 3
            maxRetry := 3
            delayMs := 100 } w.copierOk :=
      copyImage_invoked_default _ _
        (by simp [hmime]; decide) (by simp [hmime]; decide)
        (by simp [hmime]; decide) (by simp [hmime]; decide)
    simp only [h1, hsrc, hdst, hinv, Bool.not_true, Bool.false_eq_true,
      if_false, Bool.not_false, if_true]
    cases w.copierOk with
    | false => simp [isCopierInvoked]
    | true => simp [isCopierInvoked]

/-- Counterexample to claim C2 as stated: with an empty sigstore key and a
destination that already has the session's pre-computed manifest digest,
the OCI image manifest flow still invokes the underlying copier. -/
theorem oci_manifest_flow_ignores_existing_digest :
    optsFast.sigstorePrivateKey = ""
    ∧ optsFast.destination.haveDigest srcOCIm.manifestDigest = true
    ∧ (copyMediaTypeImageManifest srcOCIm optsFast wOK).2.2.countP
        (fun e => isCopierInvoked e) = 1 :=
  ⟨rfl, rfl, by decide⟩

/-- Base session retargeted at a docker v2 schema-2 source. -/
def srcS2 : Source := { srcBase with mime := DockerV2Schema2MediaType }

/-- Witness for amended claim C2 at concrete sessions. -/
theorem single_image_fast_path_schema2_only_witness :
    copyDockerV2Schema2MediaType srcS2 optsFast wOK
      = (Except.ok (), srcS2, [])
    ∧ (copyMediaTypeImageManifest srcOCIm optsSign wOK).2.2.countP
        (fun e => isCopierInvoked e) = 1 :=
  ⟨(single_image_fast_path_schema2_only srcS2 optsFast wOK).1 rfl rfl rfl,
   (single_image_fast_path_schema2_only srcOCIm optsSign wOK).2
     rfl rfl rfl rfl⟩

/-- Claim C10: a fast-path skip only increments the local copied counter in
the list flows and only returns success in the schema-2 single-image flow;
the session accumulators, the event trace and the error list are untouched,
so the provenance later returned by `GetCopiedImage` is exactly what it
would have been without the skipped variant. -/
theorem fast_path_frame (opts : CopyOptions) (m : Descriptor)
    (w : EntryWorld) (st : StepOut) (s : Source) (w2 : EntryWorld) :
    ((opts.set.Allow m.platform.architecture m.platform.os
        m.platform.variant = true →
      opts.sigstorePrivateKey = "" →
      opts.destination.haveDigest m.digest = true →
       (copyDockerV2ListStep opts m w st).src = st.src
       ∧ (copyDockerV2ListStep opts m w st).events = st.events
       ∧ (copyDockerV2ListStep opts m w st).errs = st.errs
       ∧ (copyDockerV2ListStep opts m w st).copiedNum = st.copiedNum + 1
       ∧ (copyMediaTypeImageIndexStep opts m w st).src = st.src
       ∧ (copyMediaTypeImageIndexStep opts m w st).events = st.events
       ∧ (copyMediaTypeImageIndexStep opts m w st).errs = st.errs
       ∧ (copyMediaTypeImageIndexStep opts m w st).copiedNum
         = st.copiedNum + 1
       ∧ GetCopiedImage (copyDockerV2ListStep opts m w st).src
         = GetCopiedImage st.src))
    ∧ (opts.set.Allow s.ociConfig.architecture s.ociConfig.os
        s.ociConfig.variant = true →
       opts.sigstorePrivateKey = "" →
       opts.destination.haveDigest s.manifestDigest = true →
        copyDockerV2Schema2MediaType s opts w2 = (Except.ok (), s, [])
        ∧ GetCopiedImage (copyDockerV2Schema2MediaType s opts w2).2.1
          = GetCopiedImage s) := by
  constructor
  · intro hallow hk hh
    have hstep : listEntryStep opts m w st
        = { st with copiedNum := st.copiedNum + 1 } := by
      unfold listEntryStep
      simp [hallow, hk, hh]
    have hd : copyDockerV2ListStep opts m w st
        = { st with copiedNum := st.copiedNum + 1 } := hstep
    have hi : copyMediaTypeImageIndexStep opts m w st
        = { st with copiedNum := st.copiedNum + 1 } := hstep
    rw [hd, hi]
    exact ⟨rfl, rfl, rfl, rfl, rfl, rfl, rfl, rfl, rfl⟩
  · intro hallow hk hh
    have h : copyDockerV2Schema2MediaType s opts w2 = (Except.ok (), s, []) := by
      unfold copyDockerV2Schema2MediaType
      simp [hallow, hk, hh]
    rw [h]
    exact ⟨rfl, rfl⟩

/-- Witness for claim C10 at a concrete session and options. -/
theorem fast_path_frame_witness :
    (copyDockerV2ListStep optsFast mAmd wOK
        { copiedNum := 0, errs := [], src := srcBase, events := [] }).src
      = srcBase
    ∧ GetCopiedImage (copyDockerV2Schema2MediaType srcS2 optsFast wOK).2.1
      = GetCopiedImage srcS2 := by
  have h := fast_path_frame optsFast mAmd wOK
    { copiedNum := 0, errs := [], src := srcBase, events := [] }
    srcS2 wOK
  exact ⟨(h.1 rfl rfl rfl).1, (h.2 rfl rfl rfl).2⟩

/-- Copier options produced by `copyImage` for a schema-1 source
(statement abbreviation). -/
def schema1Call (opts : CopyOptions) : CopierCall :=
  { removeSignatures := opts.removeSignatures
    signBySigstorePrivateKeyFile := opts.sigstorePrivateKey
    signSigstorePrivateKeyPassphrase := opts.sigstorePassphrase
    preserveDigests := false
    forceManifestMIMEType := some DockerV2Schema2MediaType
    maxParallelDownloads := 3
    maxRetry := 3
    delayMs := 100 }

/-- The provenance record the schema-1 flow builds from the re-inspected
destination content (statement abbreviation). -/
def schema1Spec (s : Source) (raw : RawResult) (d : String) (m2 : Schema2) :
    ImageSpec :=
  updateSpecDockerV2Schema2
    { arch := s.imageInspectInfo.architecture
      os := s.imageInspectInfo.os
      osVersion := ""
      osFeatures := []
      variant := s.imageInspectInfo.variant
      mediaType := raw.mime
      layers := []
      config := m2.configDescriptor.digest
      digest := d } m2

/-- Claim C7: after a successful schema-1 copy, the recorded spec's digest
is the digest recomputed from the re-inspected destination bytes; for an
on-disk OCI destination the staged `{destDir}/UNKNOW` directory is renamed
to `{destDir}/{newDigest.encoded()}` before the variant is recorded, and a
failing rename aborts the flow with an error and records nothing. -/
theorem schema1_flow_digest_and_rename (s : Source) (opts : CopyOptions)
    (w : EntryWorld) (raw : RawResult) (d : String) (m2 : Schema2)
    (hmime : s.mime = DockerV2Schema1MediaType
      ∨ s.mime = DockerV2Schema1SignedMediaType)
    (hallow : opts.set.Allow s.imageInspectInfo.architecture
      s.imageInspectInfo.os s.imageInspectInfo.variant = true)
    (hsrc : w.parseSourceRefOk = true) (hdst : w.destRefOk = true)
    (hcop : w.copierOk = true) (hins : w.newInspectorOk = true)
    (hraw : w.raw = some raw) (hd : raw.digest = some d)
    (hm2 : raw.parseSchema2 = some m2) :
    (schema1Spec s raw d m2).digest = d
    ∧ (opts.destination.destType = DestinationType.oci → w.renameOk = true →
        copyDockerV2Schema1MediaType s opts w
          = (Except.ok (), recordCopiedImage s (schema1Spec s raw d m2),
             [Event.copierInvoked (schema1Call opts),
              Event.renamed
                (filepathJoin opts.destination.directory "UNKNOW")
                (filepathJoin opts.destination.directory (digestEncoded d)),
              Event.recorded (schema1Spec s raw d m2)]))
    ∧ (opts.destination.destType = DestinationType.oci → w.renameOk = false →
        copyDockerV2Schema1MediaType s opts w
          = (Except.error (CopyError.entry EntryErr.renameFailed), s,
             [Event.copierInvoked (schema1Call opts),
              Event.renamed
                (filepathJoin opts.destination.directory "UNKNOW")
                (filepathJoin opts.destination.directory (digestEncoded d))]))
    ∧ (opts.destination.destType ≠ DestinationType.oci →
        copyDockerV2Schema1MediaType s opts w
          = (Except.ok (), recordCopiedImage s (schema1Spec s raw d m2),
             [Event.copierInvoked (schema1Call opts),
              Event.recorded (schema1Spec s raw d m2)])) := by
  have hinvk : copyImage
      { sigstorePrivateKey := opts.sigstorePrivateKey
        sigstorePrivateKeyPassphrase := opts.sigstorePassphrase
        removeSignatures := opts.removeSignatures
        sourceMIME := s.mime } w.copierOk
      = CopyImageResult.invoked (schema1Call opts) w.copierOk := by
    have c1 : (s.mime = DockerV2Schema1MediaType
        || s.mime = DockerV2Schema1SignedMediaType) = true := by
      rcases hmime with h | h <;> simp [h]
    simp [copyImage, c1, schema1Call]
  rw [hcop] at hinvk
  refine ⟨?_, ?_, ?_, ?_⟩
  · unfold schema1Spec
    rw [updateSpecDockerV2Schema2_eq]
  · intro hoci hrok
    unfold copyDockerV2Schema1MediaType
    simp [hallow, hsrc, hdst, hinvk, hcop, hins, hraw, hd, hm2, hoci, hrok,
      schema1Spec]
  · intro hoci hrok
    unfold copyDockerV2Schema1MediaType
    simp [hallow, hsrc, hdst, hinvk, hcop, hins, hraw, hd, hm2, hoci, hrok,
      schema1Spec]
  · intro hoci
    unfold copyDockerV2Schema1MediaType
    simp [hallow, hsrc, hdst, hinvk, hcop, hins, hraw, hd, hm2, hoci,
      schema1Spec]

/-- The spec-update functions only touch `config` and `layers`. -/
theorem updateSpecDockerV2Schema2_fields (sp : ImageSpec) (m : Schema2) :
    (updateSpecDockerV2Schema2 sp m).arch = sp.arch
    ∧ (updateSpecDockerV2Schema2 sp m).os = sp.os
    ∧ (updateSpecDockerV2Schema2 sp m).variant = sp.variant
    ∧ (updateSpecDockerV2Schema2 sp m).digest = sp.digest := by
  rw [updateSpecDockerV2Schema2_eq]
  exact ⟨rfl, rfl, rfl, rfl⟩

/-- The OCI spec-update function only touches `config` and `layers`. -/
theorem updateSpecImageManifest_fields (sp : ImageSpec) (m : OCIManifest) :
    (updateSpecImageManifest sp m).arch = sp.arch
    ∧ (updateSpecImageManifest sp m).os = sp.os
    ∧ (updateSpecImageManifest sp m).variant = sp.variant
    ∧ (updateSpecImageManifest sp m).digest = sp.digest := by
  rw [updateSpecImageManifest_eq]
  exact ⟨rfl, rfl, rfl, rfl⟩

/-- Any spec present after the entry tail was already present or carries
the entry's arch and OS. -/
theorem listEntryFinish_copiedList_mem (m : Descriptor) (raw : RawResult)
    (arch osInfo osVersion : String) (osFeatures : List String)
    (variant : String) (st : StepOut) :
    ∀ spec ∈ (listEntryFinish m raw arch osInfo osVersion osFeatures variant
        st).src.copiedList,
      spec ∈ st.src.copiedList ∨ (spec.arch = arch ∧ spec.os = osInfo) := by
  intro spec hmem
  unfold listEntryFinish at hmem
  cases hd : raw.digest with
  | none =>
    rw [hd] at hmem
    exact Or.inl hmem
  | some d =>
    rw [hd] at hmem
    split_ifs at hmem with h1 h2
    · cases hs : raw.parseSchema2 with
      | none =>
        rw [hs] at hmem
        exact Or.inl hmem
      | some m2 =>
        rw [hs] at hmem
        simp only [listEntryRecord, recordCopiedImage, List.mem_append,
          List.mem_singleton] at hmem
        rcases hmem with h | h
        · exact Or.inl h
        · subst h
          have hf := updateSpecDockerV2Schema2_fields
            { arch := arch, os := osInfo, osVersion := osVersion,
              osFeatures := osFeatures, variant := variant,
              mediaType := m.mediaType, layers := [], config := "",
              digest := d } m2
          exact Or.inr ⟨hf.1, hf.2.1⟩
    · cases ho : raw.parseOCI with
      | none =>
        rw [ho] at hmem
        exact Or.inl hmem
      | some om =>
        rw [ho] at hmem
        simp only [listEntryRecord, recordCopiedImage, List.mem_append,
          List.mem_singleton] at hmem
        rcases hmem with h | h
        · exact Or.inl h
        · subst h
          have hf := updateSpecImageManifest_fields
            { arch := arch, os := osInfo, osVersion := osVersion,
              osFeatures := osFeatures, variant := variant,
              mediaType := m.mediaType, layers := [], config := "",
              digest := d } om
          exact Or.inr ⟨hf.1, hf.2.1⟩
    · exact Or.inl hmem

/-- Any spec present after a list-entry step was already present, or has
the entry's arch and OS and the entry passed the filter (at the entry's
own variant). -/
theorem listEntryStep_copiedList_mem (opts : CopyOptions) (m : Descriptor)
    (w : EntryWorld) (st : StepOut) :
    ∀ spec ∈ (listEntryStep opts m w st).src.copiedList,
      spec ∈ st.src.copiedList
      ∨ (spec.arch = m.platform.architecture ∧ spec.os = m.platform.os
         ∧ opts.set.Allow m.platform.architecture m.platform.os
             m.platform.variant = true) := by
  intro spec hmem
  unfold listEntryStep at hmem
  by_cases hallow : opts.set.Allow m.platform.architecture m.platform.os
      m.platform.variant = true
  · rw [if_neg (by simp [hallow])] at hmem
    by_cases hfast : (decide (opts.sigstorePrivateKey = "")
        && opts.destination.haveDigest m.digest) = true
    · rw [if_pos hfast] at hmem
      exact Or.inl hmem
    · rw [if_neg hfast] at hmem
      by_cases hpsr : w.parseSourceRefOk = true
      case neg =>
        rw [if_pos (by simp [hpsr])] at hmem
        exact Or.inl hmem
      case pos =>
      rw [if_neg (by simp [hpsr])] at hmem
      by_cases hdr : w.destRefOk = true
      case neg =>
        rw [if_pos (by simp [hdr])] at hmem
        exact Or.inl hmem
      case pos =>
      rw [if_neg (by simp [hdr])] at hmem
      rcases hci : copyImage
          { sigstorePrivateKey := opts.sigstorePrivateKey
            sigstorePrivateKeyPassphrase := opts.sigstorePassphrase
            removeSignatures := opts.removeSignatures
            sourceMIME := m.mediaType } w.copierOk with mh | ⟨call, ok⟩
      · rw [hci] at hmem
        exact Or.inl hmem
      · rw [hci] at hmem
        dsimp only at hmem
        have haux :
            ∀ st' : StepOut, st'.src = st.src →
              spec ∈ (if (!ok) = true then addErr st' EntryErr.copyFailed
                else if (!w.newInspectorOk) = true then
                  addErr st' EntryErr.newInspector
                else
                  match w.raw with
                  | none => addErr st' EntryErr.rawFailed
                  | some raw =>
                    if needInspectConfig m.platform.os
                        m.platform.architecture m.platform.variant
                        m.platform.osVersion m.platform.osFeatures then
                      match w.config with
                      | none => addErr st' EntryErr.configFailed
                      | some cfg =>
                        listEntryFinish m raw m.platform.architecture
                          m.platform.os
                          (if m.platform.osVersion = "" then cfg.osVersion
                            else m.platform.osVersion)
                          (if m.platform.osFeatures.isEmpty then
                            cfg.osFeatures else m.platform.osFeatures)
                          (if m.platform.variant = "" then cfg.variant
                            else m.platform.variant)
                          st'
                    else
                      listEntryFinish m raw m.platform.architecture
                        m.platform.os m.platform.osVersion
                        m.platform.osFeatures m.platform.variant
                        st').src.copiedList →
              spec ∈ st.src.copiedList
              ∨ (spec.arch = m.platform.architecture
                 ∧ spec.os = m.platform.os) := by
          intro st' hsrc hmem'
          by_cases h1 : (!ok) = true
          · rw [if_pos h1] at hmem'
            rw [← hsrc]
            exact Or.inl hmem'
          · rw [if_neg h1] at hmem'
            by_cases h2 : (!w.newInspectorOk) = true
            · rw [if_pos h2] at hmem'
              rw [← hsrc]
              exact Or.inl hmem'
            · rw [if_neg h2] at hmem'
              cases hraw : w.raw with
              | none =>
                rw [hraw] at hmem'
                rw [← hsrc]
                exact Or.inl hmem'
              | some raw =>
                rw [hraw] at hmem'
                dsimp only at hmem'
                by_cases hn : needInspectConfig m.platform.os
                    m.platform.architecture m.platform.variant
                    m.platform.osVersion m.platform.osFeatures = true
                · rw [if_pos hn] at hmem'
                  cases hcfg : w.config with
                  | none =>
                    rw [hcfg] at hmem'
                    rw [← hsrc]
                    exact Or.inl hmem'
                  | some cfg =>
                    rw [hcfg] at hmem'
                    have := listEntryFinish_copiedList_mem m raw
                      m.platform.architecture m.platform.os _ _ _ st' spec
                      hmem'
                    rw [hsrc] at this
                    exact this
                · rw [if_neg hn] at hmem'
                  have := listEntryFinish_copiedList_mem m raw
                    m.platform.architecture m.platform.os _ _ _ st' spec
                    hmem'
                  rw [hsrc] at this
                  exact this
        have h := haux (pushEvent st (Event.copierInvoked call)) rfl hmem
        rcases h with h | h
        · exact Or.inl h
        · exact Or.inr ⟨h.1, h.2, hallow⟩
  · rw [if_pos (by simp [Bool.not_eq_true] at hallow ⊢; exact hallow)] at hmem
    exact Or.inl hmem

/-- Any spec recorded by the schema-2 single-image flow was already in the
session or passed the filter at its own platform tuple. -/
theorem schema2Flow_copiedList_mem (s : Source) (opts : CopyOptions)
    (w : EntryWorld) :
    ∀ spec ∈ (copyDockerV2Schema2MediaType s opts w).2.1.copiedList,
      spec ∈ s.copiedList
      ∨ opts.set.Allow spec.arch spec.os spec.variant = true := by
  intro spec hmem
  unfold copyDockerV2Schema2MediaType at hmem
  by_cases hallow : opts.set.Allow s.ociConfig.architecture s.ociConfig.os
      s.ociConfig.variant = true
  · rw [if_neg (by simp [hallow])] at hmem
    by_cases hfast : (decide (opts.sigstorePrivateKey = "")
        && opts.destination.haveDigest s.manifestDigest) = true
    · rw [if_pos hfast] at hmem
      exact Or.inl hmem
    · rw [if_neg hfast] at hmem
      by_cases hpsr : w.parseSourceRefOk = true
      case neg =>
        rw [if_pos (by simp [hpsr])] at hmem
        exact Or.inl hmem
      case pos =>
      rw [if_neg (by simp [hpsr])] at hmem
      by_cases hdr : w.destRefOk = true
      case neg =>
        rw [if_pos (by simp [hdr])] at hmem
        exact Or.inl hmem
      case pos =>
      rw [if_neg (by simp [hdr])] at hmem
      rcases hci : copyImage
          { sigstorePrivateKey := opts.sigstorePrivateKey
            sigstorePrivateKeyPassphrase := opts.sigstorePassphrase
            removeSignatures := opts.removeSignatures
            sourceMIME := s.mime } w.copierOk with mh | ⟨call, ok⟩
      · rw [hci] at hmem
        exact Or.inl hmem
      · rw [hci] at hmem
        dsimp only at hmem
        by_cases hok : (!ok) = true
        · rw [if_pos hok] at hmem
          exact Or.inl hmem
        · rw [if_neg hok] at hmem
          dsimp only at hmem
          simp only [recordCopiedImage, List.mem_append,
            List.mem_singleton] at hmem
          rcases hmem with h | h
          · exact Or.inl h
          · subst h
            have hf := updateSpecDockerV2Schema2_fields
              { arch := s.ociConfig.architecture, os := s.ociConfig.os,
                osVersion := s.ociConfig.osVersion,
                osFeatures := s.ociConfig.osFeatures,
                variant := s.ociConfig.variant, mediaType := s.mime,
                layers := [],
                config := s.schema2.configDescriptor.digest,
                digest := s.manifestDigest } s.schema2
            refine Or.inr ?_
            rw [hf.1, hf.2.1, hf.2.2.1]
            exact hallow
  · rw [if_pos (by simp [Bool.not_eq_true] at hallow ⊢; exact hallow)] at hmem
    exact Or.inl hmem

/-- Any spec recorded by the OCI image manifest flow was already in the
session or passed the filter at its own platform tuple. -/
theorem ociManifestFlow_copiedList_mem (s : Source) (opts : CopyOptions)
    (w : EntryWorld) :
    ∀ spec ∈ (copyMediaTypeImageManifest s opts w).2.1.copiedList,
      spec ∈ s.copiedList
      ∨ opts.set.Allow spec.arch spec.os spec.variant = true := by
  intro spec hmem
  unfold copyMediaTypeImageManifest at hmem
  by_cases hallow : opts.set.Allow s.ociConfig.architecture s.ociConfig.os
      s.ociConfig.variant = true
  · rw [if_neg (by simp [hallow])] at hmem
    by_cases hpsr : w.parseSourceRefOk = true
    case neg =>
      rw [if_pos (by simp [hpsr])] at hmem
      exact Or.inl hmem
    case pos =>
    rw [if_neg (by simp [hpsr])] at hmem
    by_cases hdr : w.destRefOk = true
    case neg =>
      rw [if_pos (by simp [hdr])] at hmem
      exact Or.inl hmem
    case pos =>
    rw [if_neg (by simp [hdr])] at hmem
    rcases hci : copyImage
        { sigstorePrivateKey := opts.sigstorePrivateKey
          sigstorePrivateKeyPassphrase := opts.sigstorePassphrase
          removeSignatures := opts.removeSignatures
          sourceMIME := s.mime } w.copierOk with mh | ⟨call, ok⟩
    · rw [hci] at hmem
      exact Or.inl hmem
    · rw [hci] at hmem
      dsimp only at hmem
      by_cases hok : (!ok) = true
      · rw [if_pos hok] at hmem
        exact Or.inl hmem
      · rw [if_neg hok] at hmem
        dsimp only at hmem
        simp only [recordCopiedImage, List.mem_append,
          List.mem_singleton] at hmem
        rcases hmem with h | h
        · exact Or.inl h
        · subst h
          have hf := updateSpecImageManifest_fields
            { arch := s.ociConfig.architecture, os := s.ociConfig.os,
              osVersion := s.ociConfig.osVersion,
              osFeatures := s.ociConfig.osFeatures,
              variant := s.ociConfig.variant, mediaType := s.mime,
              layers := [],
              config := s.ociManifest.config.digest,
              digest := s.manifestDigest } s.ociManifest
          refine Or.inr ?_
          rw [hf.1, hf.2.1, hf.2.2.1]
          exact hallow
  · rw [if_pos (by simp [Bool.not_eq_true] at hallow ⊢; exact hallow)] at hmem
    exact Or.inl hmem

/-- Any spec recorded by the schema-1 flow was already in the session or
passed the filter at its own platform tuple. -/
theorem schema1Flow_copiedList_mem (s : Source) (opts : CopyOptions)
    (w : EntryWorld) :
    ∀ spec ∈ (copyDockerV2Schema1MediaType s opts w).2.1.copiedList,
      spec ∈ s.copiedList
      ∨ opts.set.Allow spec.arch spec.os spec.variant = true := by
  intro spec hmem
  unfold copyDockerV2Schema1MediaType at hmem
  by_cases hallow : opts.set.Allow s.imageInspectInfo.architecture
      s.imageInspectInfo.os s.imageInspectInfo.variant = true
  · rw [if_neg (by simp [hallow])] at hmem
    by_cases hpsr : w.parseSourceRefOk = true
    case neg =>
      rw [if_pos (by simp [hpsr])] at hmem
      exact Or.inl hmem
    case pos =>
    rw [if_neg (by simp [hpsr])] at hmem
    by_cases hdr : w.destRefOk = true
    case neg =>
      rw [if_pos (by simp [hdr])] at hmem
      exact Or.inl hmem
    case pos =>
    rw [if_neg (by simp [hdr])] at hmem
    rcases hci : copyImage
        { sigstorePrivateKey := opts.sigstorePrivateKey
          sigstorePrivateKeyPassphrase := opts.sigstorePassphrase
          removeSignatures := opts.removeSignatures
          sourceMIME := s.mime } w.copierOk with mh | ⟨call, ok⟩
    · rw [hci] at hmem
      exact Or.inl hmem
    · rw [hci] at hmem
      dsimp only at hmem
      by_cases hok : (!ok) = true
      · rw [if_pos hok] at hmem
        exact Or.inl hmem
      · rw [if_neg hok] at hmem
        by_cases hni : (!w.newInspectorOk) = true
        · rw [if_pos hni] at hmem
          exact Or.inl hmem
        · rw [if_neg hni] at hmem
          cases hraw : w.raw with
          | none =>
            rw [hraw] at hmem
            exact Or.inl hmem
          | some raw =>
            rw [hraw] at hmem
            dsimp only at hmem
            cases hd : raw.digest with
            | none =>
              rw [hd] at hmem
              exact Or.inl hmem
            | some d =>
              rw [hd] at hmem
              dsimp only at hmem
              cases hm2 : raw.parseSchema2 with
              | none =>
                rw [hm2] at hmem
                exact Or.inl hmem
              | some m2 =>
                rw [hm2] at hmem
                dsimp only at hmem
                have hf := updateSpecDockerV2Schema2_fields
                  { arch := s.imageInspectInfo.architecture,
                    os := s.imageInspectInfo.os, osVersion := "",
                    osFeatures := [],
                    variant := s.imageInspectInfo.variant,
                    mediaType := raw.mime, layers := [],
                    config := m2.configDescriptor.digest,
                    digest := d } m2
                by_cases hoci : opts.destination.destType
                    = DestinationType.oci
                · rw [if_pos hoci] at hmem
                  by_cases hrok : w.renameOk = true
                  · rw [if_pos hrok] at hmem
                    dsimp only at hmem
                    simp only [recordCopiedImage, List.mem_append,
                      List.mem_singleton] at hmem
                    rcases hmem with h | h
                    · exact Or.inl h
                    · subst h
                      refine Or.inr ?_
                      rw [hf.1, hf.2.1, hf.2.2.1]
                      exact hallow
                  · rw [if_neg hrok] at hmem
                    exact Or.inl hmem
                · rw [if_neg hoci] at hmem
                  dsimp only at hmem
                  simp only [recordCopiedImage, List.mem_append,
                    List.mem_singleton] at hmem
                  rcases hmem with h | h
                  · exact Or.inl h
                  · subst h
                    refine Or.inr ?_
                    rw [hf.1, hf.2.1, hf.2.2.1]
                    exact hallow
  · rw [if_pos (by simp [Bool.not_eq_true] at hallow ⊢; exact hallow)] at hmem
    exact Or.inl hmem

/-- Amended claim C8: every ImageSpec appended by a single-image flow
passes the filter at its own recorded platform tuple; every ImageSpec
appended by a list-flow entry carries the entry's arch and OS and the
filter accepted the entry's tuple with the entry's own (pre-backfill)
variant.  The recorded variant itself may have been backfilled from the
image config, and the filter need not accept the backfilled value. -/
theorem filter_soundness_amended (opts : CopyOptions) (m : Descriptor)
    (w : EntryWorld) (st : StepOut) (s : Source) :
    (∀ spec ∈ (copyDockerV2ListStep opts m w st).src.copiedList,
       spec ∈ st.src.copiedList
       ∨ (spec.arch = m.platform.architecture ∧ spec.os = m.platform.os
          ∧ opts.set.Allow m.platform.architecture m.platform.os
              m.platform.variant = true))
    ∧ (∀ spec ∈ (copyMediaTypeImageIndexStep opts m w st).src.copiedList,
       spec ∈ st.src.copiedList
       ∨ (spec.arch = m.platform.architecture ∧ spec.os = m.platform.os
          ∧ opts.set.Allow m.platform.architecture m.platform.os
              m.platform.variant = true))
    ∧ (∀ spec ∈ (copyDockerV2Schema2MediaType s opts w).2.1.copiedList,
       spec ∈ s.copiedList
       ∨ opts.set.Allow spec.arch spec.os spec.variant = true)
    ∧ (∀ spec ∈ (copyDockerV2Schema1MediaType s opts w).2.1.copiedList,
       spec ∈ s.copiedList
       ∨ opts.set.Allow spec.arch spec.os spec.variant = true)
    ∧ (∀ spec ∈ (copyMediaTypeImageManifest s opts w).2.1.copiedList,
       spec ∈ s.copiedList
       ∨ opts.set.Allow spec.arch spec.os spec.variant = true) :=
  ⟨listEntryStep_copiedList_mem opts m w st,
   listEntryStep_copiedList_mem opts m w st,
   schema2Flow_copiedList_mem s opts w,
   schema1Flow_copiedList_mem s opts w,
   ociManifestFlow_copiedList_mem s opts w⟩

/-- Filter whose variant dimension contains exactly the empty string. -/
def filterVariantEmptyStr : FilterSet :=
  { archSet := [], osSet := [], variantSet := [""] }

/-- Options selecting `filterVariantEmptyStr`, no signing, destination
without any digest. -/
def optsBackfill : CopyOptions :=
  { sigstorePrivateKey := ""
    sigstorePassphrase := []
    removeSignatures := false
    destination := destNone
    set := filterVariantEmptyStr }

/-- A linux/arm list entry with an empty variant, which triggers the
config backfill. -/
def mArm : Descriptor :=
  { mediaType := DockerV2Schema2MediaType
    digest := "sha256:armd"
    platform :=
      { architecture := "arm", os := "linux", osVersion := ""
        osFeatures := [], variant := "" } }

/-- Oracle whose config blob reports variant `v7`. -/
def wBackfill : EntryWorld :=
  { wOK with
    config := some
      { architecture := "arm", os := "linux", osVersion := ""
        osFeatures := [], variant := "v7" } }

/-- The spec recorded for `mArm` under `optsBackfill` / `wBackfill`. -/
def specBackfill : ImageSpec :=
  { arch := "arm", os := "linux", osVersion := "", osFeatures := []
    variant := "v7", mediaType := DockerV2Schema2MediaType
    layers := ["sha256:l1"], config := "sha256:cfg"
    digest := "sha256:ddd" }

/-- Counterexample to claim C8 as stated: the entry passes the filter with
its empty variant, the flow backfills the variant to `v7` from the image
config, and the filter rejects the recorded spec's platform tuple. -/
theorem filter_soundness_counterexample :
    (copyDockerV2ListStep optsBackfill mArm wBackfill
        { copiedNum := 0, errs := [], src := srcBase, events := [] }
          ).src.copiedList = [specBackfill]
    ∧ optsBackfill.set.Allow mArm.platform.architecture mArm.platform.os
        mArm.platform.variant = true
    ∧ optsBackfill.set.Allow specBackfill.arch specBackfill.os
        specBackfill.variant = false := by
  refine ⟨?_, rfl, rfl⟩
  rfl

/-- Witness for amended claim C8 at the concrete backfill run. -/
theorem filter_soundness_amended_witness :
    specBackfill
        ∈ ({ copiedNum := 0, errs := [], src := srcBase, events := [] }
            : StepOut).src.copiedList
    ∨ (specBackfill.arch = mArm.platform.architecture
       ∧ specBackfill.os = mArm.platform.os
       ∧ optsBackfill.set.Allow mArm.platform.architecture mArm.platform.os
           mArm.platform.variant = true) :=
  (filter_soundness_amended optsBackfill mArm wBackfill
      { copiedNum := 0, errs := [], src := srcBase, events := [] }
      srcBase).1 specBackfill (by decide)

/-- Membership in an inserted key set. -/
theorem insertKey_mem (ks : List String) (k a : String) :
    a ∈ insertKey ks k ↔ a ∈ ks ∨ a = k := by
  unfold insertKey
  split_ifs with h
  · constructor
    · exact fun h' => Or.inl h'
    · rintro (h' | rfl)
      · exact h'
      · exact h
  · simp

/-- Membership in a folded key set. -/
theorem foldl_insertKey_mem (l : List String) (ks : List String)
    (a : String) :
    a ∈ l.foldl insertKey ks ↔ a ∈ ks ∨ a ∈ l := by
  induction l generalizing ks with
  | nil => simp
  | cons x xs ih =>
    rw [List.foldl_cons, ih, insertKey_mem, List.mem_cons]
    tauto

/-- Key insertion preserves freedom from duplicates. -/
theorem insertKey_nodup (ks : List String) (k : String) (h : ks.Nodup) :
    (insertKey ks k).Nodup := by
  unfold insertKey
  split_ifs with hc
  · exact h
  · rw [List.nodup_append]
    refine ⟨h, List.nodup_singleton k, ?_⟩
    intro a ha hb
    rw [List.mem_singleton] at hb
    subst hb
    exact hc ha

/-- Folding key insertions preserves freedom from duplicates. -/
theorem foldl_insertKey_nodup (l : List String) (ks : List String)
    (h : ks.Nodup) : (l.foldl insertKey ks).Nodup := by
  induction l generalizing ks with
  | nil => exact h
  | cons x xs ih =>
    rw [List.foldl_cons]
    exact ih _ (insertKey_nodup ks x h)

/-- A session after a sequence of `recordCopiedImage` calls (statement
harness: the flows call `recordCopiedImage` once per successful
variant). -/
def recordCopiedImages (s : Source) (specs : List ImageSpec) : Source :=
  specs.foldl recordCopiedImage s

/-- The arch accumulator after a record sequence is the fold of key
insertions over the specs' arch values. -/
theorem recordCopiedImages_copiedArch (specs : List ImageSpec)
    (s : Source) :
    (recordCopiedImages s specs).copiedArch
      = (specs.map (fun sp => sp.arch)).foldl insertKey s.copiedArch := by
  induction specs generalizing s with
  | nil => rfl
  | cons sp rest ih =>
    unfold recordCopiedImages at ih ⊢
    rw [List.foldl_cons, ih, List.map_cons, List.foldl_cons]
    rfl

/-- The OS accumulator after a record sequence. -/
theorem recordCopiedImages_copiedOS (specs : List ImageSpec) (s : Source) :
    (recordCopiedImages s specs).copiedOS
      = (specs.map (fun sp => sp.os)).foldl insertKey s.copiedOS := by
  induction specs generalizing s with
  | nil => rfl
  | cons sp rest ih =>
    unfold recordCopiedImages at ih ⊢
    rw [List.foldl_cons, ih, List.map_cons, List.foldl_cons]
    rfl

/-- The provenance list after a record sequence. -/
theorem recordCopiedImages_copiedList (specs : List ImageSpec)
    (s : Source) :
    (recordCopiedImages s specs).copiedList = s.copiedList ++ specs := by
  induction specs generalizing s with
  | nil => simp [recordCopiedImages]
  | cons sp rest ih =>
    unfold recordCopiedImages at ih ⊢
    rw [List.foldl_cons, ih]
    simp [recordCopiedImage]

/-- Amended claim C9: on a session whose accumulators start empty,
`GetCopiedImage` returns `ArchList` and `OsList` that are duplicate-free
enumerations, in unspecified order (modelled as insertion order, one
admissible order of Go's map iteration), of exactly the `Arch` and `OS`
values over the recorded specs, and `Images` is the record sequence; the
lists are not sorted by the code. -/
theorem getCopiedImage_arch_os_sets (s0 : Source) (specs : List ImageSpec)
    (hA : s0.copiedArch = []) (hO : s0.copiedOS = [])
    (hL : s0.copiedList = []) :
    ((GetCopiedImage (recordCopiedImages s0 specs)).archList.Nodup
      ∧ ∀ a, a ∈ (GetCopiedImage (recordCopiedImages s0 specs)).archList
          ↔ a ∈ specs.map (fun sp => sp.arch))
    ∧ ((GetCopiedImage (recordCopiedImages s0 specs)).osList.Nodup
      ∧ ∀ o, o ∈ (GetCopiedImage (recordCopiedImages s0 specs)).osList
          ↔ o ∈ specs.map (fun sp => sp.os))
    ∧ (GetCopiedImage (recordCopiedImages s0 specs)).images = specs := by
  have harch : (GetCopiedImage (recordCopiedImages s0 specs)).archList
      = (specs.map (fun sp => sp.arch)).foldl insertKey [] := by
    show (recordCopiedImages s0 specs).copiedArch = _
    rw [recordCopiedImages_copiedArch, hA]
  have hos : (GetCopiedImage (recordCopiedImages s0 specs)).osList
      = (specs.map (fun sp => sp.os)).foldl insertKey [] := by
    show (recordCopiedImages s0 specs).copiedOS = _
    rw [recordCopiedImages_copiedOS, hO]
  refine ⟨⟨?_, ?_⟩, ⟨?_, ?_⟩, ?_⟩
  · rw [harch]
    exact foldl_insertKey_nodup _ _ List.nodup_nil
  · intro a
    rw [harch, foldl_insertKey_mem]
    simp
  · rw [hos]
    exact foldl_insertKey_nodup _ _ List.nodup_nil
  · intro o
    rw [hos, foldl_insertKey_mem]
    simp
  · show (recordCopiedImages s0 specs).copiedList = specs
    rw [recordCopiedImages_copiedList, hL]
    simp

/-- A spec whose arch is arm64. -/
def specArm64 : ImageSpec :=
  { arch := "arm64", os := "linux", osVersion := "", osFeatures := []
    variant := "", mediaType := DockerV2Schema2MediaType, layers := []
    config := "sha256:c1", digest := "sha256:d1" }

/-- A spec whose arch is amd64. -/
def specAmd64 : ImageSpec :=
  { arch := "amd64", os := "linux", osVersion := "", osFeatures := []
    variant := "", mediaType := DockerV2Schema2MediaType, layers := []
    config := "sha256:c2", digest := "sha256:d2" }

/-- Counterexample to claim C9 as stated: after recording an arm64 variant
and then an amd64 variant, the returned `ArchList` is the right unique set
but is not sorted (the sorted listing would be `[amd64, arm64]`). -/
theorem getCopiedImage_not_sorted :
    (GetCopiedImage (recordCopiedImages srcBase [specArm64, specAmd64])
        ).archList = ["arm64", "amd64"]
    ∧ (GetCopiedImage (recordCopiedImages srcBase [specArm64, specAmd64])
        ).archList ≠ ["amd64", "arm64"]
    ∧ ((GetCopiedImage (recordCopiedImages srcBase [specArm64, specAmd64])
        ).archList).Perm ["amd64", "arm64"] := by
  refine ⟨rfl, by decide, by decide⟩

/-- Witness for amended claim C9 at the concrete two-record session. -/
theorem getCopiedImage_arch_os_sets_witness :
    (GetCopiedImage (recordCopiedImages srcBase [specArm64, specAmd64])
        ).archList.Nodup
    ∧ ("arm64" ∈ (GetCopiedImage
          (recordCopiedImages srcBase [specArm64, specAmd64])).archList
        ↔ "arm64" ∈ [specArm64, specAmd64].map (fun sp => sp.arch)) := by
  have h := getCopiedImage_arch_os_sets srcBase [specArm64, specAmd64]
    rfl rfl rfl
  exact ⟨h.1.1, h.1.2 "arm64"⟩

/-- Closed form of the dispatcher's result on a docker v2 list source. -/
theorem copy_list_reduce (s : Source) (opts : CopyOptions)
    (worlds : Nat → EntryWorld)
    (hmime : s.mime = DockerV2ListMediaType) :
    (Copy s opts worlds).1 =
      (if (foldEntries copyDockerV2ListStep opts worlds 0 s.schema2List
            { copiedNum := 0, errs := [], src := s, events := [] }).errs
          = [] then
        (if (foldEntries copyDockerV2ListStep opts worlds 0 s.schema2List
              { copiedNum := 0, errs := [], src := s, events := [] }
                ).copiedNum = 0 then
          Except.error CopyError.noAvailableImage
        else Except.ok ())
      else
        Except.error (CopyError.composite s.referenceName
          opts.destination.referenceName
          (foldEntries copyDockerV2ListStep opts worlds 0 s.schema2List
            { copiedNum := 0, errs := [], src := s, events := [] }).errs)) := by
  unfold Copy copyDockerV2ListMediaType
  rw [hmime, if_pos rfl]
  cases herrs : (foldEntries copyDockerV2ListStep opts worlds 0 s.schema2List
      { copiedNum := 0, errs := [], src := s, events := [] }).errs with
  | nil =>
    simp only [herrs, List.isEmpty_nil, if_true]
    by_cases hc : (foldEntries copyDockerV2ListStep opts worlds 0
        s.schema2List
        { copiedNum := 0, errs := [], src := s, events := [] }).copiedNum = 0
    · simp [hc]
    · simp [hc]
  | cons e es =>
    simp [herrs]

/-- Closed form of the dispatcher's result on an OCI image index source. -/
theorem copy_index_reduce (s : Source) (opts : CopyOptions)
    (worlds : Nat → EntryWorld)
    (hmime : s.mime = MediaTypeImageIndex) :
    (Copy s opts worlds).1 =
      (if (foldEntries copyMediaTypeImageIndexStep opts worlds 0 s.ociIndex
            { copiedNum := 0, errs := [], src := s, events := [] }).errs
          = [] then
        (if (foldEntries copyMediaTypeImageIndexStep opts worlds 0 s.ociIndex
              { copiedNum := 0, errs := [], src := s, events := [] }
                ).copiedNum = 0 then
          Except.error CopyError.noAvailableImage
        else Except.ok ())
      else
        Except.error (CopyError.composite s.referenceName
          opts.destination.referenceName
          (foldEntries copyMediaTypeImageIndexStep opts worlds 0 s.ociIndex
            { copiedNum := 0, errs := [], src := s, events := [] }).errs)) := by
  unfold Copy copyMediaTypeImageIndex
  rw [hmime]
  rw [if_neg (by decide), if_pos rfl]
  cases herrs : (foldEntries copyMediaTypeImageIndexStep opts worlds 0
      s.ociIndex
      { copiedNum := 0, errs := [], src := s, events := [] }).errs with
  | nil =>
    simp only [herrs, List.isEmpty_nil, if_true]
    by_cases hc : (foldEntries copyMediaTypeImageIndexStep opts worlds 0
        s.ociIndex
        { copiedNum := 0, errs := [], src := s, events := [] }).copiedNum = 0
    · simp [hc]
    · simp [hc]
  | cons e es =>
    simp [herrs]

/-- Amended claim C1: for a docker v2 list or OCI index source, `Copy`
returns `ErrNoAvailableImage` exactly when the copied count is zero and no
per-entry error occurred; whenever at least one per-entry error occurred it
returns a single composite error joining every per-entry error and naming
the source and destination pair.  The copied count is returned by the inner
list flow alongside the error but is not part of the composite error
value. -/
theorem copy_list_error_characterization (s : Source) (opts : CopyOptions)
    (worlds : Nat → EntryWorld) :
    (s.mime = DockerV2ListMediaType →
      ((Copy s opts worlds).1 = Except.error CopyError.noAvailableImage
        ↔ ((foldEntries copyDockerV2ListStep opts worlds 0 s.schema2List
              { copiedNum := 0, errs := [], src := s, events := [] }
                ).copiedNum = 0
           ∧ (foldEntries copyDockerV2ListStep opts worlds 0 s.schema2List
              { copiedNum := 0, errs := [], src := s, events := [] }).errs
             = []))
      ∧ ((foldEntries copyDockerV2ListStep opts worlds 0 s.schema2List
            { copiedNum := 0, errs := [], src := s, events := [] }).errs
           ≠ [] →
         (Copy s opts worlds).1 = Except.error (CopyError.composite
           s.referenceName opts.destination.referenceName
           (foldEntries copyDockerV2ListStep opts worlds 0 s.schema2List
             { copiedNum := 0, errs := [], src := s, events := [] }).errs)))
    ∧ (s.mime = MediaTypeImageIndex →
      ((Copy s opts worlds).1 = Except.error CopyError.noAvailableImage
        ↔ ((foldEntries copyMediaTypeImageIndexStep opts worlds 0 s.ociIndex
              { copiedNum := 0, errs := [], src := s, events := [] }
                ).copiedNum = 0
           ∧ (foldEntries copyMediaTypeImageIndexStep opts worlds 0
              s.ociIndex
              { copiedNum := 0, errs := [], src := s, events := [] }).errs
             = []))
      ∧ ((foldEntries copyMediaTypeImageIndexStep opts worlds 0 s.ociIndex
            { copiedNum := 0, errs := [], src := s, events := [] }).errs
           ≠ [] →
         (Copy s opts worlds).1 = Except.error (CopyError.composite
           s.referenceName opts.destination.referenceName
           (foldEntries copyMediaTypeImageIndexStep opts worlds 0 s.ociIndex
             { copiedNum := 0, errs := [], src := s, events := [] }).errs))) := by
  constructor
  · intro hmime
    rw [copy_list_reduce s opts worlds hmime]
    constructor
    · split_ifs with h1 h2
      · simp [h1, h2]
      · simp [h1, h2]
      · simp [h1]
    · intro hne
      rw [if_neg hne]
  · intro hmime
    rw [copy_index_reduce s opts worlds hmime]
    constructor
    · split_ifs with h1 h2
      · simp [h1, h2]
      · simp [h1, h2]
      · simp [h1]
    · intro hne
      rw [if_neg hne]

/-- Worlds in which the first entry succeeds and every later entry fails
with a copier (transport) error. -/
def worldsFirstOk : Nat → EntryWorld :=
  fun i => if i = 0 then wOK else wCopyFail

/-- Worlds in which every entry fails with a copier (transport) error. -/
def worldsAllFail : Nat → EntryWorld := fun _ => wCopyFail

/-- Two-entry docker v2 list session. -/
def srcTwo : Source := { srcBase with schema2List := [mAmd, mAmd] }

/-- Witness for amended claim C1: the empty list yields
`ErrNoAvailableImage`, and an all-fail run yields the composite error. -/
theorem copy_list_error_characterization_witness :
    (Copy { srcBase with schema2List := [] } optsNone worldsAllFail).1
      = Except.error CopyError.noAvailableImage
    ∧ (Copy srcBase optsNone worldsAllFail).1
      = Except.error (CopyError.composite srcBase.referenceName
          optsNone.destination.referenceName
          (foldEntries copyDockerV2ListStep optsNone worldsAllFail 0
            srcBase.schema2List
            { copiedNum := 0, errs := [], src := srcBase,
              events := [] }).errs) := by
  constructor
  · exact ((copy_list_error_characterization _ optsNone worldsAllFail).1
      rfl).1.mpr ⟨rfl, rfl⟩
  · exact ((copy_list_error_characterization srcBase optsNone
      worldsAllFail).1 rfl).2 (by decide)

/-- Counterexample to claim C1 as stated: a run with one successful and one
failing entry and a run with zero successful and one failing entry return
the *same* composite error value, although their copied counts differ; the
composite error therefore does not report the count of successfully copied
variants. -/
theorem composite_error_does_not_report_count :
    (Copy srcTwo optsNone worldsFirstOk).1
      = (Copy srcBase optsNone worldsAllFail).1
    ∧ (copyDockerV2ListMediaType srcTwo optsNone worldsFirstOk).1.1 = 1
    ∧ (copyDockerV2ListMediaType srcBase optsNone worldsAllFail).1.1 = 0 := by
  refine ⟨?_, rfl, rfl⟩
  rfl

/-- OCI on-disk destination at `/tmp/out`. -/
def destOci : Destination :=
  { haveDigest := fun _ => false
    referenceName := "oci:/tmp/out"
    destType := DestinationType.oci
    directory := "/tmp/out" }

/-- Options targeting the OCI on-disk destination, no signing. -/
def optsOci : CopyOptions :=
  { sigstorePrivateKey := ""
    sigstorePassphrase := []
    removeSignatures := false
    destination := destOci
    set := filterAll }

/-- Base session retargeted at a docker v2 schema-1 source. -/
def srcS1 : Source := { srcBase with mime := DockerV2Schema1MediaType }

/-- Witness for claim C7: concrete schema-1 copy into an OCI layout where
the staged directory is renamed before the record. -/
theorem schema1_flow_digest_and_rename_witness :
    copyDockerV2Schema1MediaType srcS1 optsOci wOK
      = (Except.ok (),
         recordCopiedImage srcS1 (schema1Spec srcS1 rawA "sha256:ddd"
           schema2A),
         [Event.copierInvoked (schema1Call optsOci),
          Event.renamed
            (filepathJoin optsOci.destination.directory "UNKNOW")
            (filepathJoin optsOci.destination.directory
              (digestEncoded "sha256:ddd")),
          Event.recorded (schema1Spec srcS1 rawA "sha256:ddd" schema2A)]) :=
  (schema1_flow_digest_and_rename srcS1 optsOci wOK rawA "sha256:ddd"
    schema2A (Or.inl rfl) rfl rfl rfl rfl rfl rfl rfl rfl).2.1 rfl rfl

end ImageTools
